import Mathlib

/-!
Verification of the stock-balancing decision engine of the
DynamicRetailInventoryManagement repository (src/prototype).

The core logic lives in SQL queries embedded in `src/prototype/app.py`
(ratio policy, "Policy B", and the transfer matcher) and
`src/prototype/app_1st.py` (absolute-threshold policy, "Policy A").
This file gives a shallow embedding of those queries over in-memory lists
of rows and proves / refutes the specification's claims about them.

Modelling conventions:
* SQLite INTEGER columns and parameters are `Int`.
* SQLite FLOAT division `CAST(a AS FLOAT) / b` is modelled as exact
  rational division (`Rat.divInt a b`, which equals `(a : ℚ) / b` by
  `Rat.divInt_eq_div`); division by zero yields SQL NULL, modelled as
  `none : Option ℚ`.  A SQL comparison with NULL on either side is false.
* `date('now', '-w days')` string comparison on ISO dates is modelled by
  integer day numbers.  For `w < 0` the produced modifier string
  (for example `--5 days`) is invalid, `date()` evaluates to NULL and the
  `WHERE` clause matches no row.
* SQL `ORDER BY k1 DESC, k2 DESC` is modelled as a stable insertion sort
  on the composite key; `DESC` puts NULL keys last, as SQLite does.
-/

namespace RetailStock

/-- Stock status of a classified (store, SKU) position: the values of the
`status` column ('NEEDS_STOCK', 'EXCESS_STOCK', 'OK'). -/
inductive Status
  | needsStock
  | excessStock
  | ok
deriving DecidableEq

/-- SQLite float division `CAST(a AS FLOAT) / b` for integer operands,
modelled exactly over ℚ; division by zero gives NULL (`none`). -/
def sqlDiv (a b : Int) : Option ℚ :=
  if b = 0 then none else some (Rat.divInt a b)

/-- SQLite comparison `x > y` on possibly-NULL numeric values: a comparison
with NULL on either side is not true. -/
def sqlGt : Option ℚ → Option ℚ → Bool
  | some x, some y => decide (y < x)
  | _, _ => false

/-- Column `sales_to_stock_ratio` of `stock_info` (app.py lines 257-260),
identically computed as `sales_velocity` in `store_performance`
(app.py lines 510-513): `CASE WHEN units_sold = 0 THEN 0
ELSE CAST(units_sold AS FLOAT) / quantity END`. -/
def salesVelocity (u cs : Int) : Option ℚ :=
  if u = 0 then some 0 else sqlDiv u cs

/-- Column `stock_to_sales_ratio` of `stock_info` (app.py lines 261-264),
identically computed as `stock_coverage` in `store_performance`
(app.py lines 514-518): `CASE WHEN units_sold = 0 THEN 999
ELSE CAST(quantity AS FLOAT) / units_sold END` (in the ELSE branch
`units_sold` is non-NULL and non-zero, so the inner COALESCE is the
identity). -/
def stockCoverage (u cs : Int) : Option ℚ :=
  if u = 0 then some 999 else sqlDiv cs u

/-- The NEEDS_STOCK guard of the `status` CASE of the main classification
query (app.py lines 274-278).  SQL AND binds tighter than OR, so the
condition is `(units_sold > 0 AND current_stock <= L) OR
(sales_to_stock_ratio > 1.0/K AND current_stock > 0)`.
`L` is `low_stock_threshold`, `K` is `need_ratio_threshold`. -/
def needsCondB (L K cs u : Int) : Prop :=
  (0 < u ∧ cs ≤ L) ∨
    (sqlGt (salesVelocity u cs) (sqlDiv 1 K) = true ∧ 0 < cs)

instance (L K cs u : Int) : Decidable (needsCondB L K cs u) := by
  unfold needsCondB; infer_instance

/-- The EXCESS_STOCK guard of the `status` CASE (app.py lines 281-282):
`current_stock >= E AND (units_sold = 0 OR stock_to_sales_ratio > R)`.
`E` is `excess_stock_threshold`, `R` is `excess_ratio_threshold`. -/
def excessCondB (E R cs u : Int) : Prop :=
  E ≤ cs ∧
    (u = 0 ∨ sqlGt (stockCoverage u cs) (some ((R : ℤ) : ℚ)) = true)

instance (E R cs u : Int) : Decidable (excessCondB E R cs u) := by
  unfold excessCondB; infer_instance

/-- The `status` column under the ratio policy (Policy B): the CASE
expression of app.py lines 273-286, with NEEDS_STOCK tested first. -/
def statusB (L K E R cs u : Int) : Status :=
  if needsCondB L K cs u then .needsStock
  else if excessCondB E R cs u then .excessStock
  else .ok

/-- The `imbalance_qty` column under the ratio policy: the CASE expression
of app.py lines 289-298.  `CAST(units_sold * K AS INTEGER)` is the
identity on integer operands. -/
def imbalanceQtyB (L K E R cs u : Int) : Int :=
  if 0 < u ∧ cs ≤ L then L - cs
  else if 0 < u ∧ sqlGt (salesVelocity u cs) (sqlDiv 1 K) = true then
    u * K - cs
  else if E ≤ cs ∧
      (u = 0 ∨ sqlGt (stockCoverage u cs) (some ((R : ℤ) : ℚ)) = true) then
    cs - u * R
  else 0

/-- The `status` column under the absolute-threshold policy (Policy A):
the first CASE of the `combined` CTE, app_1st.py lines 126-132. -/
def statusA (L E cs u : Int) : Status :=
  if 0 < u ∧ cs ≤ L then .needsStock
  else if u = 0 ∧ E ≤ cs then .excessStock
  else .ok

/-- The `imbalance_qty` column under the absolute-threshold policy:
the second CASE of the `combined` CTE, app_1st.py lines 133-139.  The
NEEDS_STOCK branch computes `current_stock - L` (the source comments it
as a "negative number showing deficit"); the EXCESS_STOCK branch computes
`current_stock - E`. -/
def imbalanceQtyA (L E cs u : Int) : Int :=
  if 0 < u ∧ cs ≤ L then cs - L
  else if u = 0 ∧ E ≤ cs then cs - E
  else 0

/-- A row of the `store_performance` CTE of the transfer query
(app.py lines 500-524): one (store, SKU) stock position joined with its
aggregated sales.  Display-only columns (store name, style name, size)
are omitted; `units_sold` is already COALESCEd to 0. -/
structure StorePerformance where
  store_id : Nat
  sku : Nat
  current_stock : Int
  units_sold : Int
deriving DecidableEq

/-- The list of positions the classification query labels NEEDS_STOCK
under the ratio policy (the rows of the result with
`status = 'NEEDS_STOCK'`). -/
def classifiedNeedsB (L K E R : Int) (ds : List StorePerformance) :
    List StorePerformance :=
  ds.filter fun p =>
    decide (statusB L K E R p.current_stock p.units_sold = Status.needsStock)

/-- The list of positions the classification query labels EXCESS_STOCK
under the ratio policy. -/
def classifiedExcessB (L K E R : Int) (ds : List StorePerformance) :
    List StorePerformance :=
  ds.filter fun p =>
    decide (statusB L K E R p.current_stock p.units_sold = Status.excessStock)

/-- The `needs_stores` CTE (app.py lines 526-534): positions with
`units_sold > 0 AND (current_stock <= L OR sales_velocity > 1.0/K)`. -/
def needsStores (L K : Int) (perf : List StorePerformance) :
    List StorePerformance :=
  perf.filter fun p =>
    decide (0 < p.units_sold) &&
      (decide (p.current_stock ≤ L) ||
        sqlGt (salesVelocity p.units_sold p.current_stock) (sqlDiv 1 K))

/-- The `excess_stores` CTE (app.py lines 536-544): positions with
`current_stock >= E AND (units_sold = 0 OR stock_coverage > R)`. -/
def excessStores (E R : Int) (perf : List StorePerformance) :
    List StorePerformance :=
  perf.filter fun p =>
    decide (E ≤ p.current_stock) &&
      (decide (p.units_sold = 0) ||
        sqlGt (stockCoverage p.units_sold p.current_stock) (some ((R : ℤ) : ℚ)))

/-- The `transfer_qty_needed` column (app.py lines 560-565):
`CASE WHEN n.current_stock <= L THEN L - n.current_stock
ELSE CAST(n.units_sold * K - n.current_stock AS INTEGER) END`. -/
def transferQtyNeeded (L K : Int) (n : StorePerformance) : Int :=
  if n.current_stock ≤ L then L - n.current_stock
  else n.units_sold * K - n.current_stock

/-- The `transfer_qty_available` column (app.py lines 567-570):
`CASE WHEN e.units_sold = 0 THEN e.current_stock - E
ELSE e.current_stock - CAST(e.units_sold * R AS INTEGER) END`. -/
def transferQtyAvailable (E R : Int) (e : StorePerformance) : Int :=
  if e.units_sold = 0 then e.current_stock - E
  else e.current_stock - e.units_sold * R

/-- The `priority_score` column (app.py line 583):
`(n.sales_velocity * 10) + (CASE WHEN n.current_stock <= L THEN 5 ELSE 0
END)`; NULL sales velocity propagates to a NULL score. -/
def priorityScore (L : Int) (n : StorePerformance) : Option ℚ :=
  match salesVelocity n.units_sold n.current_stock with
  | none => none
  | some v => some (v * 10 + if n.current_stock ≤ L then 5 else 0)

/-- One row of the transfer query result (app.py lines 545-583).
Display-only columns (store names, style name, size, the velocity and
coverage of the two sides) are omitted. -/
structure TransferCandidate where
  needs_store_id : Nat
  has_store_id : Nat
  sku : Nat
  needs_qty : Int
  needs_sales : Int
  has_qty : Int
  has_sales : Int
  transfer_qty_needed : Int
  transfer_qty_available : Int
  transfer_qty : Int
  priority_score : Option ℚ
deriving DecidableEq

/-- Builds the SELECT row for one joined pair (n, e): `transfer_qty` is
`MIN(transfer_qty_needed, transfer_qty_available)` (app.py lines 572-581). -/
def mkCandidate (L K E R : Int) (n e : StorePerformance) : TransferCandidate :=
  { needs_store_id := n.store_id
    has_store_id := e.store_id
    sku := n.sku
    needs_qty := n.current_stock
    needs_sales := n.units_sold
    has_qty := e.current_stock
    has_sales := e.units_sold
    transfer_qty_needed := transferQtyNeeded L K n
    transfer_qty_available := transferQtyAvailable E R e
    transfer_qty := min (transferQtyNeeded L K n) (transferQtyAvailable E R e)
    priority_score := priorityScore L n }

/-- The joined candidate set before ordering (app.py lines 584-588):
`FROM needs_stores n JOIN excess_stores e ON n.sku = e.sku
WHERE n.store_id != e.store_id AND n.current_stock < L
AND e.current_stock > E`. -/
def candidatePairs (L K E R : Int) (perf : List StorePerformance) :
    List TransferCandidate :=
  (needsStores L K perf).flatMap fun n =>
    ((excessStores E R perf).filter fun e =>
        decide (n.sku = e.sku) && decide (n.store_id ≠ e.store_id) &&
          decide (n.current_stock < L) && decide (E < e.current_stock)).map
      (mkCandidate L K E R n)

/-- SQLite `ORDER BY x DESC` key comparison on a possibly-NULL key:
non-NULL keys come first in decreasing order, NULL keys last. -/
def descNullsLast : Option ℚ → Option ℚ → Bool
  | some x, some y => decide (y < x)
  | some _, none => true
  | none, _ => false

/-- The composite `ORDER BY priority_score DESC, n.units_sold DESC`
(app.py line 589) as a "may precede" relation on result rows. -/
def transferOrder (a b : TransferCandidate) : Bool :=
  descNullsLast a.priority_score b.priority_score ||
    (decide (a.priority_score = b.priority_score) &&
      decide (b.needs_sales ≤ a.needs_sales))

/-- Stable insertion into a list ordered by the "may precede" relation
`le`: `a` is placed before the first element it may precede. -/
def insertOrd (le : α → α → Bool) (a : α) : List α → List α
  | [] => [a]
  | b :: l => if le a b then a :: b :: l else b :: insertOrd le a l

/-- Stable sort by the "may precede" relation `le` (insertion sort):
the model of SQL ORDER BY. -/
def sortBy (le : α → α → Bool) (l : List α) : List α :=
  l.foldr (insertOrd le) []

/-- The final transfer recommendation list: the SQL query orders the
candidate pairs and truncates to 25 rows (`LIMIT 25`, app.py line 590),
then the dashboard drops rows with non-positive `transfer_qty`
(`transfers[transfers['transfer_qty'] > 0]`, app.py line 616). -/
def transfers (L K E R : Int) (perf : List StorePerformance) :
    List TransferCandidate :=
  ((sortBy transferOrder (candidatePairs L K E R perf)).take 25).filter
    fun c => decide (0 < c.transfer_qty)

/-- A raw sales record as read by the aggregation CTEs: the relevant
columns of the `sales` table (`revenue` is never used by the core). -/
structure SaleEvent where
  store_id : Nat
  sku : Nat
  sale_date : Int
  quantity : Int
deriving DecidableEq

/-- One row of the `sales_last_n_days` CTE result. -/
structure SalesAgg where
  store_id : Nat
  sku : Nat
  units_sold : Int
  days_sold : Nat
deriving DecidableEq

/-- The error taxonomy the specification prescribes for the sales
aggregator.  The source performs no window validation, so the embedded
aggregator below never actually produces this error; the type exists to
make the specification's failure claim statable. -/
inductive SalesAggError
  | invalidWindow
deriving DecidableEq

instance {ε α : Type} [DecidableEq ε] [DecidableEq α] :
    DecidableEq (Except ε α) := fun x y =>
  match x, y with
  | .ok a, .ok b =>
    if h : a = b then isTrue (by rw [h])
    else isFalse (by intro hc; injection hc; contradiction)
  | .error a, .error b =>
    if h : a = b then isTrue (by rw [h])
    else isFalse (by intro hc; injection hc; contradiction)
  | .ok _, .error _ => isFalse (by intro h; exact Except.noConfusion h)
  | .error _, .ok _ => isFalse (by intro h; exact Except.noConfusion h)

/-- GROUP BY store_id, sku with SUM(quantity) and
COUNT(DISTINCT sale_date), groups listed in order of first appearance. -/
def aggregateSales (rows : List SaleEvent) : List SalesAgg :=
  ((rows.map fun s => (s.store_id, s.sku)).dedup).map fun k =>
    { store_id := k.1
      sku := k.2
      units_sold :=
        ((rows.filter fun s =>
            decide (s.store_id = k.1) && decide (s.sku = k.2)).map
          (fun s => s.quantity)).sum
      days_sold :=
        ((rows.filter fun s =>
            decide (s.store_id = k.1) && decide (s.sku = k.2)).map
          (fun s => s.sale_date)).dedup.length }

/-- The `sales_last_n_days` CTE (app.py lines 234-243): aggregates sales
with `sale_date >= date('now', '-w days')`.  The window comes from a UI
slider bounded to 1..90 (app.py line 31); no validation exists in the
source, so the result is always `Except.ok`.  For `w < 0` the date
modifier string is malformed, `date()` is NULL and the WHERE clause
matches nothing, yielding an empty aggregation rather than an error. -/
def salesLastNDays (today w : Int) (rows : List SaleEvent) :
    Except SalesAggError (List SalesAgg) :=
  if w < 0 then .ok []
  else .ok (aggregateSales (rows.filter fun s => decide (today - w ≤ s.sale_date)))

/-- Concrete dataset for witnesses: one understocked fast seller at store 0
and one stale overstocked position at store 1, same SKU. -/
def perfPair : List StorePerformance := [⟨0, 1, 1, 2⟩, ⟨1, 1, 6, 0⟩]

/-- Concrete dataset with one understocked fast seller and 25 stale
overstocked positions of the same SKU at 25 distinct stores, producing 25
transfer candidate pairs. -/
def perfMany : List StorePerformance :=
  ⟨0, 1, 1, 2⟩ :: (List.range 25).map fun i => ⟨i + 1, 1, 6, 0⟩

/-!  Basic facts about the stable insertion sort used to model ORDER BY. -/

theorem insertOrd_length {α : Type} (le : α → α → Bool) (a : α) (l : List α) :
    (insertOrd le a l).length = l.length + 1 := by
  induction l with
  | nil => rfl
  | cons b l ih =>
    unfold insertOrd
    split
    · simp
    · simp [ih]

theorem sortBy_length {α : Type} (le : α → α → Bool) (l : List α) :
    (sortBy le l).length = l.length := by
  induction l with
  | nil => rfl
  | cons a l ih =>
    show (insertOrd le a (sortBy le l)).length = _
    rw [insertOrd_length, ih, List.length_cons]

theorem mem_insertOrd {α : Type} {le : α → α → Bool} {a x : α} {l : List α} :
    x ∈ insertOrd le a l ↔ x = a ∨ x ∈ l := by
  induction l with
  | nil => simp [insertOrd]
  | cons b l ih =>
    unfold insertOrd
    split
    · simp [or_comm, or_left_comm]
    · simp [ih]
      tauto

theorem mem_sortBy {α : Type} {le : α → α → Bool} {x : α} {l : List α} :
    x ∈ sortBy le l ↔ x ∈ l := by
  induction l with
  | nil => simp [sortBy]
  | cons a l ih =>
    show x ∈ insertOrd le a (sortBy le l) ↔ _
    rw [mem_insertOrd, ih]
    simp

theorem pairwise_insertOrd {α : Type} {le : α → α → Bool}
    (htrans : ∀ a b c, le a b = true → le b c = true → le a c = true)
    (htotal : ∀ a b, le a b = true ∨ le b a = true)
    (a : α) {l : List α} (h : l.Pairwise fun x y => le x y = true) :
    (insertOrd le a l).Pairwise fun x y => le x y = true := by
  induction l with
  | nil => simp [insertOrd]
  | cons b l ih =>
    rw [List.pairwise_cons] at h
    obtain ⟨hb, hl⟩ := h
    unfold insertOrd
    split
    case isTrue hab =>
      rw [List.pairwise_cons]
      refine ⟨?_, ?_⟩
      · intro x hx
        rcases List.mem_cons.mp hx with rfl | hx
        · exact hab
        · exact htrans a b x hab (hb x hx)
      · rw [List.pairwise_cons]
        exact ⟨hb, hl⟩
    case isFalse hab =>
      rw [List.pairwise_cons]
      refine ⟨?_, ih hl⟩
      intro x hx
      rcases mem_insertOrd.mp hx with h | hx
      · rw [h]
        exact (htotal a b).resolve_left hab
      · exact hb x hx

theorem pairwise_sortBy {α : Type} {le : α → α → Bool}
    (htrans : ∀ a b c, le a b = true → le b c = true → le a c = true)
    (htotal : ∀ a b, le a b = true ∨ le b a = true)
    (l : List α) :
    (sortBy le l).Pairwise fun x y => le x y = true := by
  induction l with
  | nil => simp [sortBy]
  | cons a l ih => exact pairwise_insertOrd htrans htotal a ih

/-!  The ORDER BY key relation is transitive and total. -/

theorem transferOrder_total (a b : TransferCandidate) :
    transferOrder a b = true ∨ transferOrder b a = true := by
  rcases ha : a.priority_score with _ | x <;> rcases hb : b.priority_score with _ | y
  · simp [transferOrder, descNullsLast, ha, hb]
    omega
  · simp [transferOrder, descNullsLast, ha, hb]
  · simp [transferOrder, descNullsLast, ha, hb]
  · rcases lt_trichotomy x y with h | h | h
    · right
      simp [transferOrder, descNullsLast, ha, hb, h]
    · subst h
      simp [transferOrder, descNullsLast, ha, hb]
      omega
    · left
      simp [transferOrder, descNullsLast, ha, hb, h]

theorem transferOrder_trans (a b c : TransferCandidate)
    (hab : transferOrder a b = true) (hbc : transferOrder b c = true) :
    transferOrder a c = true := by
  rcases ha : a.priority_score with _ | x <;> rcases hb : b.priority_score with _ | y <;>
    rcases hc : c.priority_score with _ | z <;>
    simp [transferOrder, descNullsLast, ha, hb, hc] at hab hbc ⊢
  · omega
  · rcases hab with h1 | ⟨h1, h1s⟩ <;> rcases hbc with h2 | ⟨h2, h2s⟩
    · exact Or.inl (lt_trans h2 h1)
    · exact Or.inl (h2 ▸ h1)
    · subst h1
      exact Or.inl h2
    · subst h1
      subst h2
      exact Or.inr ⟨rfl, le_trans h2s h1s⟩

/-!  Bridging lemmas between the SQL float comparisons and integer
arithmetic. -/

theorem sqlGt_some_some {x y : ℚ} : sqlGt (some x) (some y) = true ↔ y < x := by
  simp [sqlGt]

theorem sqlGt_velocity_iff {u cs K : Int} (hK : 1 ≤ K) (hcs : 0 < cs) :
    sqlGt (salesVelocity u cs) (sqlDiv 1 K) = true ↔ cs < u * K := by
  have hKne : K ≠ 0 := by omega
  have hcsne : cs ≠ 0 := by omega
  have hKQ : (0:ℚ) < (K:ℚ) := by exact_mod_cast (show (0:ℤ) < K by omega)
  have hcsQ : (0:ℚ) < (cs:ℚ) := by exact_mod_cast hcs
  unfold salesVelocity sqlDiv
  rw [if_neg hKne]
  by_cases hu : u = 0
  · subst hu
    rw [if_pos rfl, sqlGt_some_some, Rat.divInt_eq_div]
    constructor
    · intro h
      exfalso
      have hpos : (0:ℚ) < 1 / (K:ℚ) := by positivity
      linarith
    · intro h
      exfalso
      omega
  · rw [if_neg hu, if_neg hcsne, sqlGt_some_some, Rat.divInt_eq_div,
      Rat.divInt_eq_div, div_lt_div_iff hKQ hcsQ]
    push_cast
    rw [one_mul]
    constructor
    · intro h
      exact_mod_cast h
    · intro h
      exact_mod_cast h

theorem sqlGt_coverage_iff {u cs R : Int} (hu : 0 < u) :
    sqlGt (stockCoverage u cs) (some ((R : ℤ) : ℚ)) = true ↔ u * R < cs := by
  have hune : u ≠ 0 := by omega
  have huQ : (0:ℚ) < (u:ℚ) := by exact_mod_cast hu
  unfold stockCoverage sqlDiv
  rw [if_neg hune, if_neg hune, sqlGt_some_some, Rat.divInt_eq_div,
    lt_div_iff huQ, mul_comm]
  constructor
  · intro h
    exact_mod_cast h
  · intro h
    exact_mod_cast h

theorem coverage_gt_sign {u cs R : Int} (hcs : 0 < cs) (hR : 0 ≤ R)
    (hune : u ≠ 0)
    (h : sqlGt (stockCoverage u cs) (some ((R : ℤ) : ℚ)) = true) :
    u * R < cs := by
  rcases lt_or_gt_of_ne hune with hneg | hpos
  · exfalso
    unfold stockCoverage sqlDiv at h
    rw [if_neg hune, if_neg hune, sqlGt_some_some, Rat.divInt_eq_div] at h
    have h1 : (cs:ℚ) / (u:ℚ) < 0 :=
      div_neg_of_pos_of_neg (by exact_mod_cast hcs) (by exact_mod_cast hneg)
    have h2 : (0:ℚ) ≤ ((R:ℤ):ℚ) := by exact_mod_cast hR
    linarith
  · exact (sqlGt_coverage_iff hpos).mp h

/-!  Characterizations of the status CASE. -/

theorem statusB_eq_needs {L K E R cs u : Int} :
    statusB L K E R cs u = Status.needsStock ↔ needsCondB L K cs u := by
  unfold statusB
  split_ifs with h1 h2 <;> simp_all

theorem statusB_eq_excess {L K E R cs u : Int} :
    statusB L K E R cs u = Status.excessStock ↔
      ¬ needsCondB L K cs u ∧ excessCondB E R cs u := by
  unfold statusB
  split_ifs with h1 h2 <;> simp_all

/-!  Decomposition of membership in the transfer matcher's outputs. -/

theorem mem_candidatePairs {L K E R : Int} {perf : List StorePerformance}
    {c : TransferCandidate} :
    c ∈ candidatePairs L K E R perf ↔
      ∃ n e, n ∈ needsStores L K perf ∧ e ∈ excessStores E R perf ∧
        n.sku = e.sku ∧ n.store_id ≠ e.store_id ∧ n.current_stock < L ∧
        E < e.current_stock ∧ c = mkCandidate L K E R n e := by
  unfold candidatePairs
  constructor
  · intro h3
    obtain ⟨n, hn, hmap⟩ := List.mem_flatMap.mp h3
    obtain ⟨e, he, rfl⟩ := List.mem_map.mp hmap
    obtain ⟨he1, he2⟩ := List.mem_filter.mp he
    simp only [Bool.and_eq_true, decide_eq_true_eq] at he2
    exact ⟨n, e, hn, he1, he2.1.1.1, he2.1.1.2, he2.1.2, he2.2, rfl⟩
  · rintro ⟨n, e, hn, he, h1, h2, h3, h4, rfl⟩
    apply List.mem_flatMap.mpr
    refine ⟨n, hn, ?_⟩
    apply List.mem_map.mpr
    refine ⟨e, ?_, rfl⟩
    apply List.mem_filter.mpr
    refine ⟨he, ?_⟩
    simp only [Bool.and_eq_true, decide_eq_true_eq]
    exact ⟨⟨⟨h1, h2⟩, h3⟩, h4⟩

theorem mem_transfers {L K E R : Int} {perf : List StorePerformance}
    {c : TransferCandidate} (hc : c ∈ transfers L K E R perf) :
    0 < c.transfer_qty ∧
      ∃ n e, n ∈ needsStores L K perf ∧ e ∈ excessStores E R perf ∧
        n.sku = e.sku ∧ n.store_id ≠ e.store_id ∧ n.current_stock < L ∧
        E < e.current_stock ∧ c = mkCandidate L K E R n e := by
  unfold transfers at hc
  obtain ⟨h1, h2⟩ := List.mem_filter.mp hc
  have h3 : c ∈ candidatePairs L K E R perf :=
    mem_sortBy.mp (List.mem_of_mem_take h1)
  exact ⟨by simpa using h2, mem_candidatePairs.mp h3⟩

/-- C1: every transfer candidate returned by the ratio-policy matcher has
distinct source and destination stores, a strictly positive transfer
quantity, and a transfer quantity equal to (hence bounded by) the minimum
of the destination's needed quantity and the source's sparable quantity. -/
theorem c1_transfer_validity (L K E R : Int) (perf : List StorePerformance)
    (c : TransferCandidate) (hc : c ∈ transfers L K E R perf) :
    c.needs_store_id ≠ c.has_store_id ∧ 0 < c.transfer_qty ∧
      c.transfer_qty = min c.transfer_qty_needed c.transfer_qty_available ∧
      c.transfer_qty ≤ c.transfer_qty_needed ∧
      c.transfer_qty ≤ c.transfer_qty_available := by
  obtain ⟨hpos, n, e, _, _, _, hne, _, _, rfl⟩ := mem_transfers hc
  exact ⟨hne, hpos, rfl, min_le_left _ _, min_le_right _ _⟩

/-- Witness for C1 at a concrete dataset: the pair (store 0 lacking stock,
store 1 holding stale excess) yields one recommendation. -/
theorem c1_witness :
    (mkCandidate 2 3 5 7 ⟨0, 1, 1, 2⟩ ⟨1, 1, 6, 0⟩ ∈
        transfers 2 3 5 7 perfPair) ∧
      ((mkCandidate 2 3 5 7 ⟨0, 1, 1, 2⟩ ⟨1, 1, 6, 0⟩).needs_store_id ≠
          (mkCandidate 2 3 5 7 ⟨0, 1, 1, 2⟩ ⟨1, 1, 6, 0⟩).has_store_id ∧
        0 < (mkCandidate 2 3 5 7 ⟨0, 1, 1, 2⟩ ⟨1, 1, 6, 0⟩).transfer_qty ∧
        (mkCandidate 2 3 5 7 ⟨0, 1, 1, 2⟩ ⟨1, 1, 6, 0⟩).transfer_qty =
          min (mkCandidate 2 3 5 7 ⟨0, 1, 1, 2⟩ ⟨1, 1, 6, 0⟩).transfer_qty_needed
            (mkCandidate 2 3 5 7 ⟨0, 1, 1, 2⟩ ⟨1, 1, 6, 0⟩).transfer_qty_available ∧
        (mkCandidate 2 3 5 7 ⟨0, 1, 1, 2⟩ ⟨1, 1, 6, 0⟩).transfer_qty ≤
          (mkCandidate 2 3 5 7 ⟨0, 1, 1, 2⟩ ⟨1, 1, 6, 0⟩).transfer_qty_needed ∧
        (mkCandidate 2 3 5 7 ⟨0, 1, 1, 2⟩ ⟨1, 1, 6, 0⟩).transfer_qty ≤
          (mkCandidate 2 3 5 7 ⟨0, 1, 1, 2⟩ ⟨1, 1, 6, 0⟩).transfer_qty_available) :=
  ⟨by with_unfolding_all decide,
    c1_transfer_validity 2 3 5 7 perfPair
      (mkCandidate 2 3 5 7 ⟨0, 1, 1, 2⟩ ⟨1, 1, 6, 0⟩)
      (by with_unfolding_all decide)⟩

/-- C10: every candidate produced by the matcher satisfies the strict
WHERE-clause bounds: the needing store's stock is strictly below the low
threshold and the excess store's stock is strictly above the excess
threshold — so a velocity-only NEEDS_STOCK position holding at least the
low threshold never appears as a destination. -/
theorem c10_strict_bounds (L K E R : Int) (perf : List StorePerformance)
    (c : TransferCandidate) (hc : c ∈ transfers L K E R perf) :
    c.needs_qty < L ∧ E < c.has_qty := by
  obtain ⟨_, n, e, _, _, _, _, hnL, heE, rfl⟩ := mem_transfers hc
  exact ⟨hnL, heE⟩

/-- Witness for C10 at a concrete dataset. -/
theorem c10_witness :
    (mkCandidate 2 3 5 7 ⟨0, 1, 1, 2⟩ ⟨1, 1, 6, 0⟩ ∈
        transfers 2 3 5 7 perfPair) ∧
      (mkCandidate 2 3 5 7 ⟨0, 1, 1, 2⟩ ⟨1, 1, 6, 0⟩).needs_qty < 2 ∧
      (5:ℤ) < (mkCandidate 2 3 5 7 ⟨0, 1, 1, 2⟩ ⟨1, 1, 6, 0⟩).has_qty := by
  refine ⟨by with_unfolding_all decide, ?_, ?_⟩
  · exact (c10_strict_bounds 2 3 5 7 perfPair
      (mkCandidate 2 3 5 7 ⟨0, 1, 1, 2⟩ ⟨1, 1, 6, 0⟩)
      (by with_unfolding_all decide)).1
  · exact (c10_strict_bounds 2 3 5 7 perfPair
      (mkCandidate 2 3 5 7 ⟨0, 1, 1, 2⟩ ⟨1, 1, 6, 0⟩)
      (by with_unfolding_all decide)).2

/-- No candidate pair ever carries a non-positive transfer quantity, given
thresholds in the ranges the configuration UI allows (excess threshold and
excess ratio non-negative). -/
theorem candidatePairs_pos (L K E R : Int) (perf : List StorePerformance)
    (hE : 0 ≤ E) (hR : 0 ≤ R) :
    ∀ c ∈ candidatePairs L K E R perf, 0 < c.transfer_qty := by
  intro c hc
  obtain ⟨n, e, _, he, _, _, hnL, heE, rfl⟩ := mem_candidatePairs.mp hc
  have hneed : 0 < transferQtyNeeded L K n := by
    unfold transferQtyNeeded
    rw [if_pos (le_of_lt hnL)]
    omega
  have havail : 0 < transferQtyAvailable E R e := by
    unfold transferQtyAvailable
    by_cases hu : e.units_sold = 0
    · rw [if_pos hu]
      omega
    · rw [if_neg hu]
      obtain ⟨_, he2⟩ := List.mem_filter.mp he
      simp only [Bool.and_eq_true, Bool.or_eq_true, decide_eq_true_eq] at he2
      rcases he2.2 with h0 | hgt
      · exact absurd h0 hu
      · have := coverage_gt_sign (show 0 < e.current_stock by omega) hR hu hgt
        omega
  show 0 < min (transferQtyNeeded L K n) (transferQtyAvailable E R e)
  exact lt_min hneed havail

/-- C5: under the UI's threshold ranges, non-positive candidate pairs do
not exist, so discarding them commutes with the LIMIT truncation: the
returned list equals the top-25 of the positively-filtered candidates, and
whenever at least 25 positive candidate pairs exist it has exactly 25
entries, all positive. -/
theorem c5_positive_before_truncation (L K E R : Int)
    (perf : List StorePerformance) (hE : 0 ≤ E) (hR : 0 ≤ R)
    (hN : 25 ≤ ((candidatePairs L K E R perf).filter
      fun c => decide (0 < c.transfer_qty)).length) :
    transfers L K E R perf =
        (sortBy transferOrder ((candidatePairs L K E R perf).filter
          fun c => decide (0 < c.transfer_qty))).take 25 ∧
      (transfers L K E R perf).length = 25 ∧
      ∀ c ∈ transfers L K E R perf, 0 < c.transfer_qty := by
  have hall := candidatePairs_pos L K E R perf hE hR
  have hfe : (candidatePairs L K E R perf).filter
      (fun c => decide (0 < c.transfer_qty)) = candidatePairs L K E R perf := by
    apply List.filter_eq_self.mpr
    intro a ha
    simpa using hall a ha
  have htr : transfers L K E R perf =
      (sortBy transferOrder (candidatePairs L K E R perf)).take 25 := by
    unfold transfers
    apply List.filter_eq_self.mpr
    intro a ha
    have hmem : a ∈ candidatePairs L K E R perf :=
      mem_sortBy.mp (List.mem_of_mem_take ha)
    simpa using hall a hmem
  refine ⟨?_, ?_, ?_⟩
  · rw [hfe]
    exact htr
  · rw [htr, List.length_take, sortBy_length]
    rw [hfe] at hN
    exact min_eq_left hN
  · intro c hcmem
    exact (mem_transfers hcmem).1

/-- Witness for C5: with 1 needing store and 25 excess stores of the same
SKU there are 25 positive candidate pairs, and the matcher returns exactly
25 recommendations. -/
theorem c5_witness :
    (0:ℤ) ≤ 5 ∧ (0:ℤ) ≤ 7 ∧
      25 ≤ ((candidatePairs 2 3 5 7 perfMany).filter
        fun c => decide (0 < c.transfer_qty)).length ∧
      (transfers 2 3 5 7 perfMany).length = 25 :=
  ⟨by decide, by decide, by with_unfolding_all decide,
    (c5_positive_before_truncation 2 3 5 7 perfMany (by decide) (by decide)
      (by with_unfolding_all decide)).2.1⟩

/-- C2 counterexample: under Policy A at L = 2, E = 5, a position with
stock 1 and 5 recent sales is NEEDS_STOCK, but the reported imbalance is
current_stock − L = −1, not L − current_stock = 1, and it is negative. -/
theorem c2_counterexample :
    statusA 2 5 1 5 = Status.needsStock ∧ imbalanceQtyA 2 5 1 5 = -1 ∧
      imbalanceQtyA 2 5 1 5 ≠ 2 - 1 ∧ ¬ 0 ≤ imbalanceQtyA 2 5 1 5 := by
  decide

/-- C2 (amended): under Policy A the reported imbalance is
current_stock − low_stock_threshold for NEEDS_STOCK (a non-positive
deficit, as the source comments), current_stock − excess_stock_threshold
(non-negative) for EXCESS_STOCK, and 0 otherwise. -/
theorem c2_policyA_imbalance (L E cs u : Int) :
    (statusA L E cs u = Status.needsStock →
      imbalanceQtyA L E cs u = cs - L ∧ imbalanceQtyA L E cs u ≤ 0) ∧
    (statusA L E cs u = Status.excessStock →
      imbalanceQtyA L E cs u = cs - E ∧ 0 ≤ imbalanceQtyA L E cs u) ∧
    (statusA L E cs u = Status.ok → imbalanceQtyA L E cs u = 0) := by
  unfold statusA imbalanceQtyA
  split_ifs with h1 h2 <;>
    refine ⟨fun h => ?_, fun h => ?_, fun h => ?_⟩ <;> simp_all

/-- Witness for C2 at the spec's own example position. -/
theorem c2_witness :
    statusA 2 5 1 5 = Status.needsStock ∧
      imbalanceQtyA 2 5 1 5 = 1 - 2 ∧ imbalanceQtyA 2 5 1 5 ≤ 0 :=
  ⟨by decide, (c2_policyA_imbalance 2 5 1 5).1 (by decide)⟩

/-- C3 counterexample: at L = 2, K = 3, a NEEDS_STOCK position with stock
1 and 3 recent sales gets imbalance L − cs = 1, not the larger of the two
targets max (L − cs) (u·K − cs) = 8. -/
theorem c3_counterexample :
    statusB 2 3 8 7 1 3 = Status.needsStock ∧
      imbalanceQtyB 2 3 8 7 1 3 = 1 ∧
      max (2 - 1) (3 * 3 - 1) = (8:ℤ) ∧ (1:ℤ) ≠ 8 := by
  decide

/-- C3 (amended): under Policy B a NEEDS_STOCK position's imbalance is
low_stock_threshold − current_stock when units_sold > 0 and
current_stock ≤ low_stock_threshold, and otherwise
units_sold · need_ratio_threshold − current_stock; the branches are not
combined with max. -/
theorem c3_needs_imbalance (L K E R cs u : Int) (hK : 1 ≤ K)
    (h : statusB L K E R cs u = Status.needsStock) :
    imbalanceQtyB L K E R cs u =
      if 0 < u ∧ cs ≤ L then L - cs else u * K - cs := by
  rw [statusB_eq_needs] at h
  unfold needsCondB at h
  unfold imbalanceQtyB
  by_cases h1 : 0 < u ∧ cs ≤ L
  · rw [if_pos h1, if_pos h1]
  · rw [if_neg h1, if_neg h1]
    rcases h with h2 | ⟨hgt, hcs⟩
    · exact absurd h2 h1
    · have hcsK : cs < u * K := (sqlGt_velocity_iff hK hcs).mp hgt
      have hu : 0 < u := by
        by_contra hu
        push_neg at hu
        have : u * K ≤ 0 := mul_nonpos_iff.mpr (Or.inr ⟨hu, by omega⟩)
        omega
      rw [if_pos ⟨hu, hgt⟩]

/-- Witness for C3 (amended) at a velocity-triggered position: stock 5,
sold 3, K = 3 gives imbalance 3·3 − 5 = 4. -/
theorem c3_witness :
    (1:ℤ) ≤ 3 ∧ statusB 2 3 8 7 5 3 = Status.needsStock ∧
      imbalanceQtyB 2 3 8 7 5 3 =
        if 0 < (3:ℤ) ∧ (5:ℤ) ≤ 2 then 2 - 5 else 3 * 3 - 5 :=
  ⟨by decide, by decide, c3_needs_imbalance 2 3 8 7 5 3 (by decide) (by decide)⟩

/-- C4: under Policy B a position is NEEDS_STOCK exactly when
units_sold > 0 and (current_stock ≤ low_stock_threshold or the
sales-to-stock ratio — units_sold/current_stock if current_stock > 0,
else 0 — exceeds 1/need_ratio_threshold), for any ratio threshold ≥ 1
(the UI range is 1..5). -/
theorem c4_needs_iff (L K E R cs u : Int) (hK : 1 ≤ K) :
    statusB L K E R cs u = Status.needsStock ↔
      0 < u ∧ (cs ≤ L ∨
        (1:ℚ) / (K:ℚ) < (if 0 < cs then (u:ℚ) / (cs:ℚ) else 0)) := by
  have hKQ : (0:ℚ) < (K:ℚ) := by exact_mod_cast (show (0:ℤ) < K by omega)
  have hbound : (0:ℚ) < 1 / (K:ℚ) := by positivity
  rw [statusB_eq_needs]
  unfold needsCondB
  constructor
  · rintro (⟨hu, hL⟩ | ⟨hgt, hcs⟩)
    · exact ⟨hu, Or.inl hL⟩
    · have hcsK : cs < u * K := (sqlGt_velocity_iff hK hcs).mp hgt
      have hu : 0 < u := by
        by_contra hu
        push_neg at hu
        have : u * K ≤ 0 := mul_nonpos_iff.mpr (Or.inr ⟨hu, by omega⟩)
        omega
      refine ⟨hu, Or.inr ?_⟩
      rw [if_pos hcs, div_lt_div_iff hKQ (by exact_mod_cast hcs), one_mul]
      exact_mod_cast hcsK
  · rintro ⟨hu, hL | hratio⟩
    · exact Or.inl ⟨hu, hL⟩
    · by_cases hcs : 0 < cs
      · rw [if_pos hcs, div_lt_div_iff hKQ (by exact_mod_cast hcs),
          one_mul] at hratio
        refine Or.inr ⟨(sqlGt_velocity_iff hK hcs).mpr ?_, hcs⟩
        exact_mod_cast hratio
      · rw [if_neg hcs] at hratio
        exact absurd (lt_trans hbound hratio) (lt_irrefl 0)

/-- Witness for C4 at a critically-low position: stock 1, sold 1, L = 2. -/
theorem c4_witness :
    (1:ℤ) ≤ 3 ∧
      (statusB 2 3 8 7 1 1 = Status.needsStock ↔
        0 < (1:ℤ) ∧ ((1:ℤ) ≤ 2 ∨
          (1:ℚ) / ((3:ℤ):ℚ) <
            (if 0 < (1:ℤ) then ((1:ℤ):ℚ) / ((1:ℤ):ℚ) else 0))) :=
  ⟨by decide, c4_needs_iff 2 3 8 7 1 1 (by decide)⟩

/-- C6 counterexample: three positions produce two candidates that tie on
priority_score and on the needing store's units_sold but whose
transfer quantities come out in ascending order 1, 3 — the claimed
transfer_qty-descending tie-break does not exist in the query. -/
theorem c6_counterexample :
    (transfers 10 3 5 7 [⟨0, 1, 1, 2⟩, ⟨1, 1, 6, 0⟩, ⟨2, 1, 8, 0⟩]).map
        (fun c => c.transfer_qty) = [1, 3] ∧
      ¬ ((transfers 10 3 5 7 [⟨0, 1, 1, 2⟩, ⟨1, 1, 6, 0⟩, ⟨2, 1, 8, 0⟩]).Pairwise
        fun a b => a.priority_score = b.priority_score →
          a.needs_sales = b.needs_sales → b.transfer_qty ≤ a.transfer_qty) := by
  with_unfolding_all decide

/-- C6 (amended): the returned list is ordered by priority_score
descending (NULL scores last) with ties broken by the needing store's
units_sold descending; the query applies no further tie-break, so
candidates equal on both keys stay in candidate-generation order. -/
theorem c6_output_sorted (L K E R : Int) (perf : List StorePerformance) :
    (transfers L K E R perf).Pairwise
      fun a b => transferOrder a b = true := by
  unfold transfers
  have hs := pairwise_sortBy transferOrder_trans transferOrder_total
    (candidatePairs L K E R perf)
  exact List.Pairwise.sublist
    ((List.filter_sublist _).trans (List.take_sublist _ _)) hs

/-- C7: under Policy B, raising the low-stock threshold only grows the
NEEDS_STOCK set, and raising the excess-stock threshold only shrinks the
EXCESS_STOCK set (all other inputs fixed); counts follow suit. -/
theorem c7_threshold_monotonicity (L1 L2 L K E R E1 E2 : Int)
    (ds : List StorePerformance) (hL : L1 ≤ L2) (hE : E1 ≤ E2) :
    (∀ p ∈ classifiedNeedsB L1 K E R ds, p ∈ classifiedNeedsB L2 K E R ds) ∧
      (classifiedNeedsB L1 K E R ds).length ≤
        (classifiedNeedsB L2 K E R ds).length ∧
      (∀ p ∈ classifiedExcessB L K E2 R ds, p ∈ classifiedExcessB L K E1 R ds) ∧
      (classifiedExcessB L K E2 R ds).length ≤
        (classifiedExcessB L K E1 R ds).length := by
  have hneed : ∀ cs u, statusB L1 K E R cs u = Status.needsStock →
      statusB L2 K E R cs u = Status.needsStock := by
    intro cs u h
    rw [statusB_eq_needs] at h ⊢
    unfold needsCondB at h ⊢
    rcases h with ⟨hu, hcs⟩ | h2
    · exact Or.inl ⟨hu, le_trans hcs hL⟩
    · exact Or.inr h2
  have hexc : ∀ cs u, statusB L K E2 R cs u = Status.excessStock →
      statusB L K E1 R cs u = Status.excessStock := by
    intro cs u h
    rw [statusB_eq_excess] at h ⊢
    obtain ⟨hn, he⟩ := h
    refine ⟨hn, ?_⟩
    unfold excessCondB at he ⊢
    exact ⟨le_trans hE he.1, he.2⟩
  have hsub1 : (classifiedNeedsB L1 K E R ds).Sublist
      (classifiedNeedsB L2 K E R ds) := by
    apply List.monotone_filter_right
    intro p hp
    simp only [decide_eq_true_eq] at hp ⊢
    exact hneed _ _ hp
  have hsub2 : (classifiedExcessB L K E2 R ds).Sublist
      (classifiedExcessB L K E1 R ds) := by
    apply List.monotone_filter_right
    intro p hp
    simp only [decide_eq_true_eq] at hp ⊢
    exact hexc _ _ hp
  exact ⟨fun p hp => hsub1.subset hp, hsub1.length_le,
    fun p hp => hsub2.subset hp, hsub2.length_le⟩

/-- Witness for C7 at a concrete dataset and threshold pair. -/
theorem c7_witness :
    (1:ℤ) ≤ 2 ∧ (5:ℤ) ≤ 6 ∧
      (classifiedNeedsB 1 3 8 7 perfPair).length ≤
        (classifiedNeedsB 2 3 8 7 perfPair).length :=
  ⟨by decide, by decide,
    (c7_threshold_monotonicity 1 2 2 3 8 7 5 6 perfPair (by decide)
      (by decide)).2.1⟩

/-- C8 counterexample: the embedded aggregator (faithful to the source,
which performs no window validation) succeeds at windows 0 and −5 instead
of failing with InvalidWindow. -/
theorem c8_counterexample :
    salesLastNDays 100 0 [⟨0, 1, 100, 3⟩] = Except.ok [⟨0, 1, 3, 1⟩] ∧
      salesLastNDays 100 0 [⟨0, 1, 100, 3⟩] ≠
        Except.error SalesAggError.invalidWindow ∧
      salesLastNDays 100 (-5) [⟨0, 1, 100, 3⟩] = Except.ok [] := by
  decide

/-- C8 (amended): the sales aggregation never fails — for any window it
returns a plain result, and for every window ≥ 1 it produces the
per-(store, SKU) aggregation of the sales inside the window. -/
theorem c8_never_fails (today w : Int) (rows : List SaleEvent) :
    (∃ r, salesLastNDays today w rows = Except.ok r) ∧
      (1 ≤ w → salesLastNDays today w rows =
        Except.ok (aggregateSales
          (rows.filter fun s => decide (today - w ≤ s.sale_date)))) := by
  unfold salesLastNDays
  split_ifs with h
  · exact ⟨⟨[], rfl⟩, fun h1 => by omega⟩
  · exact ⟨⟨_, rfl⟩, fun _ => rfl⟩

/-- Witness for C8 (amended) at a one-week window. -/
theorem c8_witness :
    (1:ℤ) ≤ 7 ∧
      salesLastNDays 100 7 [⟨0, 1, 95, 2⟩] =
        Except.ok (aggregateSales
          ([⟨0, 1, 95, 2⟩].filter fun s => decide ((100:ℤ) - 7 ≤ s.sale_date))) :=
  ⟨by decide, (c8_never_fails 100 7 [⟨0, 1, 95, 2⟩]).2 (by decide)⟩

/-- C9: every position gets exactly one of the three statuses, and because
the NEEDS_STOCK arm of the CASE is tested first, a position satisfying
both guard conditions simultaneously is classified NEEDS_STOCK, never
EXCESS_STOCK. -/
theorem c9_needs_wins_overlap (L K E R cs u : Int) :
    (statusB L K E R cs u = Status.needsStock ∨
      statusB L K E R cs u = Status.excessStock ∨
      statusB L K E R cs u = Status.ok) ∧
    (needsCondB L K cs u → excessCondB E R cs u →
      statusB L K E R cs u = Status.needsStock ∧
        statusB L K E R cs u ≠ Status.excessStock) := by
  constructor
  · unfold statusB
    split_ifs <;> simp
  · intro hn _
    unfold statusB
    rw [if_pos hn]
    exact ⟨rfl, by simp⟩

/-- Witness for C9: at L = 10, K = 3, E = 5, R = 1 the position with
stock 7 and 1 sale satisfies both guards and is classified NEEDS_STOCK
(the thresholds are orderable this way because the UI never validates
E > L). -/
theorem c9_witness :
    needsCondB 10 3 7 1 ∧ excessCondB 5 1 7 1 ∧
      statusB 10 3 5 1 7 1 = Status.needsStock ∧
        statusB 10 3 5 1 7 1 ≠ Status.excessStock :=
  ⟨by decide, by decide,
    (c9_needs_wins_overlap 10 3 5 1 7 1).2 (by decide) (by decide)⟩

end RetailStock
